import Mathlib

/-!
Shallow embedding of the tiered time-series retention and aggregation engine
of `src/main.cpp` (ESP32 temperature/humidity logger), together with proofs
about its documented properties.

Modelling conventions:
* C `uint32_t` values are `Nat` values below `2 ^ 32`; arithmetic that can
  wrap in C is made explicit through `mod32` / `sub32`.
* C `float` sensor values are modelled by `ℚ` (exact arithmetic; the only
  float operations performed by the engine are comparisons, sums and one
  division per bucket).  `NaN` inputs are modelled by explicit flags, since
  `ℚ` has no `NaN`.
* External collaborators (real-time clock, `millis()` boot counter, heap
  statistics, `strftime` formatting) are passed in explicitly as an `Env`.
* Buffers (`std::deque` / `std::vector`) are `List`s with the oldest entry
  at the head: `push_back` appends at the end, `pop_front` / `erase(begin)`
  drop the head.
-/

set_option maxHeartbeats 1000000
set_option maxRecDepth 8192

namespace TempHum

/-- Reduction of a `Nat` to the value range of a C `uint32_t`. -/
def mod32 (x : Nat) : Nat := x % 2 ^ 32

/-- Wrapping C `uint32_t` subtraction `a - b` for `a b : Nat` already below
`2 ^ 32`. -/
def sub32 (a b : Nat) : Nat := (a + (2 ^ 32 - b % 2 ^ 32)) % 2 ^ 32

/-- The C cast `(int)x` applied to a `uint32_t` value (two's complement
reinterpretation), used by the bucket de-duplication check. -/
def toInt32 (x : Nat) : Int :=
  if x % 2 ^ 32 < 2 ^ 31 then ((x % 2 ^ 32 : Nat) : Int)
  else ((x % 2 ^ 32 : Nat) : Int) - 2 ^ 32

/-- `SAMPLE_MS`: 30-second measurement interval, in milliseconds. -/
def SAMPLE_MS : Nat := 30000

/-- `DETAILED_PERIOD_SEC`: retention window of the detailed buffer. -/
def DETAILED_PERIOD_SEC : Nat := 1800

/-- `AGGREGATE_INTERVAL_SEC`: width of an aggregation bucket. -/
def AGGREGATE_INTERVAL_SEC : Nat := 300

/-- `MAX_DETAILED_SAMPLES = DETAILED_PERIOD_SEC / (SAMPLE_MS / 1000)` (60). -/
def MAX_DETAILED_SAMPLES : Nat := DETAILED_PERIOD_SEC / (SAMPLE_MS / 1000)

/-- `MAX_AGGREGATE_SAMPLES`: capacity of the aggregated series (288). -/
def MAX_AGGREGATE_SAMPLES : Nat := 288

/-- `EMERGENCY_AGGREGATION_THRESHOLD`: high memory-pressure bound (80 %). -/
def EMERGENCY_AGGREGATION_THRESHOLD : Nat := 80

/-- `CRITICAL_MEMORY_THRESHOLD`: critical memory-pressure bound (90 %). -/
def CRITICAL_MEMORY_THRESHOLD : Nat := 90

/-- `SPIFFS_SAVE_INTERVAL_SEC`: persistence cadence (one hour). -/
def SPIFFS_SAVE_INTERVAL_SEC : Nat := 3600

/-- `MAX_SPIFFS_RECORDS`: cap on persisted aggregated records (2016). -/
def MAX_SPIFFS_RECORDS : Nat := 2016

/-- The `Reading` struct of `main.cpp`: `uint32_t ts` (seconds), `float t`
(°C), `float h` (%), and a derived human-readable `String datetime`. -/
structure Reading where
  ts : Nat
  t : ℚ
  h : ℚ
  datetime : String
deriving DecidableEq

/-- The engine's global mutable state in `main.cpp`: the two buffers, the
alert variables, the emergency-mode flag, the two cadence timers
(`lastAggregation` is the static local of `addReading`, `lastSPIFFSSave` the
global), and the static `bootTime` offset of `addReading`'s clock fallback
(`none` until first captured). -/
structure EngineState where
  detailedBuffer : List Reading
  aggregatedBuffer : List Reading
  alertThreshold : ℚ
  alertActive : Bool
  alertAcknowledged : Bool
  humidityAlertThreshold : ℚ
  humidityAlertActive : Bool
  humidityAlertAcknowledged : Bool
  emergencyMode : Bool
  lastAggregation : Nat
  lastSPIFFSSave : Nat
  bootTime : Option Nat
deriving DecidableEq

/-- The initial values of the globals in `main.cpp` (thresholds 40 °C and
90 %, no active alert, empty buffers, timers at 0). -/
def initialState : EngineState :=
  { detailedBuffer := [], aggregatedBuffer := [], alertThreshold := 40,
    alertActive := false, alertAcknowledged := true,
    humidityAlertThreshold := 90, humidityAlertActive := false,
    humidityAlertAcknowledged := true, emergencyMode := false,
    lastAggregation := 0, lastSPIFFSSave := 0, bootTime := none }

/-- One step's view of the external collaborators: `rtc` is the value
`getCurrentTimestamp()` returns, `millis` the `uint32_t` value of the boot
counter, `memUsage` the `getMemoryUsagePercent()` sample taken by
`checkMemoryUsage`, `mem k` the sample taken at the `k`-th iteration of the
aggregated-truncation loop of `emergencyDataCompression`, `dtStr` the value
of `getCurrentDateTime()`, and `fmt` the `localtime_r`/`strftime` rendering
of a bucket timestamp. -/
structure Env where
  rtc : Nat
  millis : Nat
  memUsage : Nat
  mem : Nat → Nat
  dtStr : String
  fmt : Nat → String

/-- Drop oldest entries (list head) until the length is at most `cap`;
this is the shape of every `while (size() > cap) pop_front/erase(begin)`
loop in `main.cpp`. -/
def dropOldestToCap (cap : Nat) (l : List α) : List α := l.drop (l.length - cap)

/-- The timestamp computation of `addReading` (`main.cpp` lines 266-275):
take `getCurrentTimestamp()`; if it is zero or below the epoch threshold
`1000000000`, fall back to `bootTime + millis()/1000`, where the static
`bootTime` is captured as `millis()/1000` on first fallback use.  Returns
the computed timestamp together with the updated `bootTime` static. -/
def computeTimestamp (rtc millis : Nat) (bootTime : Option Nat) : Nat × Option Nat :=
  if rtc = 0 ∨ rtc < 1000000000 then
    let b := bootTime.getD (millis / 1000)
    (mod32 (b + millis / 1000), some b)
  else (rtc, bootTime)

/-- `checkTemperatureAlert` (`main.cpp` lines 565-581): raise an
unacknowledged alert when the temperature strictly exceeds the threshold and
no alert is active; auto-clear (and mark acknowledged) when it drops back to
or below the threshold. -/
def checkTemperatureAlert (temperature : ℚ) (s : EngineState) : EngineState :=
  if s.alertThreshold < temperature then
    if s.alertActive then s
    else { s with alertActive := true, alertAcknowledged := false }
  else
    if s.alertActive then { s with alertActive := false, alertAcknowledged := true }
    else s

/-- The aggregated-series truncation loop of `emergencyDataCompression`
(`main.cpp` line 423): `while (size > MAX_AGGREGATE_SAMPLES/2 &&
getMemoryUsagePercent() > CRITICAL_MEMORY_THRESHOLD) erase(begin)`.
`mem k` is the `k`-th memory sample; the `fuel` argument is initialised to
the list length, which bounds the number of iterations the C loop can make
(each iteration removes one element), so the recursion is faithful to the
loop. -/
def aggCompressGo (mem : Nat → Nat) : Nat → Nat → List Reading → List Reading
  | 0, _, l => l
  | fuel + 1, k, l =>
    if MAX_AGGREGATE_SAMPLES / 2 < l.length ∧ CRITICAL_MEMORY_THRESHOLD < mem k then
      aggCompressGo mem fuel (k + 1) l.tail
    else l

/-- `emergencyDataCompression` (`main.cpp` lines 414-432): truncate the
detailed buffer to half its nominal capacity dropping oldest, then truncate
the aggregated buffer towards half its capacity while the memory reporter
still says strictly above the critical threshold. -/
def emergencyDataCompression (mem : Nat → Nat) (s : EngineState) : EngineState :=
  { s with
    detailedBuffer := dropOldestToCap (MAX_DETAILED_SAMPLES / 2) s.detailedBuffer,
    aggregatedBuffer :=
      aggCompressGo mem s.aggregatedBuffer.length 0 s.aggregatedBuffer }

/-- `checkMemoryUsage` (`main.cpp` lines 393-412): at or above the critical
threshold always compress and set emergency mode; at or above the high
threshold compress only on first entry into emergency mode; below both,
clear emergency mode. -/
def checkMemoryUsage (memUsage : Nat) (mem : Nat → Nat) (s : EngineState) : EngineState :=
  if CRITICAL_MEMORY_THRESHOLD ≤ memUsage then
    { (emergencyDataCompression mem s) with emergencyMode := true }
  else if EMERGENCY_AGGREGATION_THRESHOLD ≤ memUsage then
    if s.emergencyMode then s
    else { (emergencyDataCompression mem s) with emergencyMode := true }
  else
    if s.emergencyMode then { s with emergencyMode := false } else s

/-- The clock read of `aggregateOldData` (`main.cpp` lines 314-317): use
`getCurrentTimestamp()`, or plain `millis()/1000` when unsynchronized (note:
unlike `addReading`, no `bootTime` offset is added here). -/
def aggNow (rtc millis : Nat) : Nat :=
  if rtc = 0 ∨ rtc < 1000000000 then millis / 1000 else rtc

/-- `cutoffTime = now - DETAILED_PERIOD_SEC` of `aggregateOldData`
(`main.cpp` line 320), in wrapping `uint32_t` arithmetic. -/
def aggCutoff (env : Env) : Nat :=
  sub32 (aggNow env.rtc env.millis) DETAILED_PERIOD_SEC

/-- The scan predicate `it->ts < cutoffTime` of `aggregateOldData`. -/
def oldReading (cutoff : Nat) (r : Reading) : Bool := decide (r.ts < cutoff)

/-- Bucket key of a reading: `(ts / AGGREGATE_INTERVAL_SEC) *
AGGREGATE_INTERVAL_SEC` (`main.cpp` line 328). -/
def bucketKey (r : Reading) : Nat :=
  r.ts / AGGREGATE_INTERVAL_SEC * AGGREGATE_INTERVAL_SEC

/-- Ordered insertion of a key into a sorted distinct key list, modelling
key insertion into the `std::map` of `aggregateOldData`. -/
def insertKey (k : Nat) : List Nat → List Nat
  | [] => [k]
  | x :: xs =>
    if k < x then k :: x :: xs
    else if k = x then x :: xs
    else x :: insertKey k xs

/-- The ascending key set of the `std::map<uint32_t, std::vector<Reading>>`
built from the collected old readings. -/
def bucketKeys (old : List Reading) : List Nat :=
  old.foldl (fun ks r => insertKey (bucketKey r) ks) []

/-- The vector of readings mapped to key `k` (scan order is preserved by
`push_back`). -/
def bucketGroup (old : List Reading) (k : Nat) : List Reading :=
  old.filter (fun r => bucketKey r = k)

/-- The duplicate check of `aggregateOldData` (`main.cpp` lines 353-359):
some existing aggregated entry satisfies
`abs((int)existing.ts - (int)bucket.first) < 60`.  The `int` subtraction is
taken at its mathematical value. -/
def dedupHit (agg : List Reading) (k : Nat) : Bool :=
  agg.any (fun e => (toInt32 e.ts - toInt32 k).natAbs < 60)

/-- Processing of one bucket of `aggregateOldData` (`main.cpp` lines
334-366): skip empty buckets, average temperature and humidity, and append
a new aggregated entry at the bucket key unless the duplicate check hits. -/
def insertBucket (fmt : Nat → String) (old : List Reading) (agg : List Reading)
    (k : Nat) : List Reading :=
  let grp := bucketGroup old k
  if grp.isEmpty then agg
  else
    let avgT := (grp.map Reading.t).sum / (grp.length : ℚ)
    let avgH := (grp.map Reading.h).sum / (grp.length : ℚ)
    if dedupHit agg k then agg
    else agg ++ [⟨k, avgT, avgH, fmt k⟩]

/-- `aggregateOldData` (`main.cpp` lines 309-383): no-op on an empty
detailed buffer; otherwise collect the contiguous oldest run of entries
older than the cutoff, fold them into 5-minute buckets in ascending key
order, enforce the aggregated capacity dropping oldest, and erase the
collected run from the detailed buffer. -/
def aggregateOldData (env : Env) (s : EngineState) : EngineState :=
  if s.detailedBuffer.isEmpty then s
  else
    let cutoff := aggCutoff env
    let old := s.detailedBuffer.takeWhile (oldReading cutoff)
    let agg1 := (bucketKeys old).foldl (insertBucket env.fmt old) s.aggregatedBuffer
    { s with
      aggregatedBuffer := dropOldestToCap MAX_AGGREGATE_SAMPLES agg1,
      detailedBuffer := s.detailedBuffer.dropWhile (oldReading cutoff) }

/-- `addReading` (`main.cpp` lines 254-307): reject NaN or out-of-range
values; otherwise timestamp the reading (with the `bootTime` fallback when
the clock is unsynchronized), append it to the detailed buffer enforcing the
FIFO capacity, run the temperature alert check and the memory check, then on
their cadences run aggregation (interval halved in emergency mode) and the
persistence save (which does not change the buffers; only its timer is
recorded here). -/
def addReading (env : Env) (tIsNaN hIsNaN : Bool) (t h : ℚ)
    (s : EngineState) : EngineState :=
  if tIsNaN || hIsNaN then s
  else if t < -40 ∨ 80 < t ∨ h < 0 ∨ 100 < h then s
  else
    let p := computeTimestamp env.rtc env.millis s.bootTime
    let now := p.1
    let datetime :=
      if env.rtc = 0 ∨ env.rtc < 1000000000 then
        "Boot+" ++ toString (env.millis / 1000) ++ "s"
      else env.dtStr
    let s1 := { s with
      bootTime := p.2,
      detailedBuffer := dropOldestToCap MAX_DETAILED_SAMPLES
        (s.detailedBuffer ++ [⟨now, t, h, datetime⟩]) }
    let s2 := checkTemperatureAlert t s1
    let s3 := checkMemoryUsage env.memUsage env.mem s2
    let interval :=
      if s3.emergencyMode then AGGREGATE_INTERVAL_SEC / 2
      else AGGREGATE_INTERVAL_SEC
    let s4 :=
      if interval ≤ sub32 now s3.lastAggregation then
        { (aggregateOldData env s3) with lastAggregation := now }
      else s3
    if SPIFFS_SAVE_INTERVAL_SEC ≤ sub32 now s4.lastSPIFFSSave then
      { s4 with lastSPIFFSSave := now }
    else s4

/-- The record list written by `saveToPersistentStorage` (`main.cpp` lines
434-480): the last `MAX_SPIFFS_RECORDS` entries of the aggregated buffer, in
stored order. -/
def saveToPersistentStorage (agg : List Reading) : List Reading :=
  agg.drop (agg.length - MAX_SPIFFS_RECORDS)

/-- The clock read of `loadFromPersistentStorage` (`main.cpp` lines
517-518): `getCurrentTimestamp()`, falling back to `millis()/1000` only
when it is exactly zero. -/
def loadNow (rtc millis : Nat) : Nat := if rtc = 0 then millis / 1000 else rtc

/-- `loadFromPersistentStorage` (`main.cpp` lines 482-530), successful-parse
case: append to the aggregated buffer every stored record whose wrapping age
`now - ts` is at most 7 days, preserving stored order.  No capacity is
enforced. -/
def loadFromPersistentStorage (rtc millis : Nat) (file : List Reading)
    (agg : List Reading) : List Reading :=
  agg ++ file.filter (fun r => decide (sub32 (loadNow rtc millis) r.ts ≤ 7 * 24 * 3600))

/-- Result of a `handleSetAlert` request: the engine state after the call,
the HTTP status sent, and whether `saveConfigToPersistentStorage` was
invoked. -/
structure SetAlertResult where
  state : EngineState
  status : Nat
  persisted : Bool
deriving DecidableEq

/-- `handleSetAlert` (`main.cpp` lines 583-597): with a `threshold`
parameter present, accept exactly when `0 < v ∧ v < 100`, replacing the
threshold and persisting the configuration (HTTP 200); otherwise reject with
HTTP 400 and no state change.  A missing parameter also answers 400. -/
def handleSetAlert (threshold : Option ℚ) (s : EngineState) : SetAlertResult :=
  match threshold with
  | none => ⟨s, 400, false⟩
  | some v =>
    if 0 < v ∧ v < 100 then
      ⟨{ s with alertThreshold := v }, 200, true⟩
    else ⟨s, 400, false⟩

/-- `handleAckAlert` (`main.cpp` lines 599-607): mark an active alert
acknowledged; no-op when no alert is active. -/
def handleAckAlert (s : EngineState) : EngineState :=
  if s.alertActive then { s with alertAcknowledged := true } else s

/-- The operations of the engine that mutate its state, as invoked by
`loop()`, `setup()` and the HTTP handlers of `main.cpp`.  `load` carries the
parsed record list of the data file and the optional `alert_threshold` of
the config file (applied by `loadConfigFromPersistentStorage`). -/
inductive Op where
  | submit (env : Env) (tIsNaN hIsNaN : Bool) (t h : ℚ)
  | aggregate (env : Env)
  | memCheck (memUsage : Nat) (mem : Nat → Nat)
  | setAlert (v : Option ℚ)
  | ackAlert
  | load (rtc millis : Nat) (file : List Reading) (cfg : Option ℚ)

/-- Whether an operation is the startup load from persistent storage. -/
def Op.isLoad : Op → Bool
  | .load _ _ _ _ => true
  | _ => false

/-- Apply one operation to the engine state. -/
def applyOp (s : EngineState) : Op → EngineState
  | .submit env tn hn t h => addReading env tn hn t h s
  | .aggregate env => aggregateOldData env s
  | .memCheck memUsage mem => checkMemoryUsage memUsage mem s
  | .setAlert v => (handleSetAlert v s).state
  | .ackAlert => handleAckAlert s
  | .load rtc millis file cfg =>
    { s with
      aggregatedBuffer := loadFromPersistentStorage rtc millis file s.aggregatedBuffer,
      alertThreshold := cfg.getD s.alertThreshold }

/-- Run a sequence of operations. -/
def runOps (s : EngineState) (ops : List Op) : EngineState := ops.foldl applyOp s

/-- Total number of stored readings across both buffers. -/
def totalCount (s : EngineState) : Nat :=
  s.detailedBuffer.length + s.aggregatedBuffer.length

/-- The `i`-th operation of the C7 retention scenario: a valid reading
(20 °C, 50 %) submitted at the nominal 30-second sample interval under a
synchronized clock and normal memory pressure. -/
def c7Op (i : Nat) : Op :=
  Op.submit ⟨1700000000 + 30 * i, 0, 50, fun _ => 50, "", fun _ => ""⟩
    false false 20 50

/-- Intermediate engine state of the C7 scenario after `n ≤ 60` accepted
readings (`last` is the `lastAggregation` timer value). -/
def c7Mid (n last : Nat) : EngineState :=
  { detailedBuffer := (List.range n).map (fun j => ⟨1700000000 + 30 * j, 20, 50, ""⟩),
    aggregatedBuffer := [], alertThreshold := 40, alertActive := false,
    alertAcknowledged := true, humidityAlertThreshold := 90,
    humidityAlertActive := false, humidityAlertAcknowledged := true,
    emergencyMode := false, lastAggregation := last,
    lastSPIFFSSave := 1700000000, bootTime := none }

/-- Engine state of the C7 scenario after all 70 readings: exactly the most
recent 60 readings remain. -/
def c7Final : EngineState :=
  { detailedBuffer := (List.range 60).map (fun j => ⟨1700000000 + 30 * (10 + j), 20, 50, ""⟩),
    aggregatedBuffer := [], alertThreshold := 40, alertActive := false,
    alertAcknowledged := true, humidityAlertThreshold := 90,
    humidityAlertActive := false, humidityAlertAcknowledged := true,
    emergencyMode := false, lastAggregation := 1700001800,
    lastSPIFFSSave := 1700000000, bootTime := none }

theorem dropOldestToCap_length_le_cap (cap : Nat) (l : List α) :
    (dropOldestToCap cap l).length ≤ cap := by
  simp only [dropOldestToCap, List.length_drop]
  omega

theorem dropOldestToCap_length_le (cap : Nat) (l : List α) :
    (dropOldestToCap cap l).length ≤ l.length := by
  simp only [dropOldestToCap, List.length_drop]
  omega

theorem dropOldestToCap_eq_of_le (cap : Nat) (l : List α) (h : l.length ≤ cap) :
    dropOldestToCap cap l = l := by
  simp only [dropOldestToCap, Nat.sub_eq_zero_of_le h, List.drop_zero]

theorem dropOldestToCap_length_of_ge (cap : Nat) (l : List α) (h : cap ≤ l.length) :
    (dropOldestToCap cap l).length = cap := by
  simp only [dropOldestToCap, List.length_drop]
  omega

theorem aggCompressGo_length_le (mem : Nat → Nat) :
    ∀ (fuel k : Nat) (l : List Reading),
      (aggCompressGo mem fuel k l).length ≤ l.length := by
  intro fuel
  induction fuel with
  | zero => intro k l; exact Nat.le_refl _
  | succ n ih =>
    intro k l
    simp only [aggCompressGo]
    split
    · exact Nat.le_trans (ih (k + 1) l.tail) (by rw [List.length_tail]; omega)
    · exact Nat.le_refl _

theorem aggCompressGo_eq_of_le (mem : Nat → Nat) (fuel k : Nat) (l : List Reading)
    (h : l.length ≤ MAX_AGGREGATE_SAMPLES / 2) : aggCompressGo mem fuel k l = l := by
  cases fuel with
  | zero => rfl
  | succ n =>
    simp only [aggCompressGo]
    rw [if_neg]
    intro hc
    exact absurd hc.1 (by omega)

theorem aggCompressGo_length_lt (mem : Nat → Nat) (l : List Reading)
    (hl : MAX_AGGREGATE_SAMPLES / 2 < l.length)
    (hm : CRITICAL_MEMORY_THRESHOLD < mem 0) :
    (aggCompressGo mem l.length 0 l).length < l.length := by
  obtain ⟨n, hn⟩ : ∃ n, l.length = n + 1 :=
    ⟨l.length - 1, by have := hl; simp [MAX_AGGREGATE_SAMPLES] at this; omega⟩
  rw [hn]
  simp only [aggCompressGo]
  rw [if_pos ⟨by omega, hm⟩]
  have h1 := aggCompressGo_length_le mem n (0 + 1) l.tail
  have h2 : l.tail.length = l.length - 1 := List.length_tail l
  omega

theorem takeWhile_dropWhile_nil (p : α → Bool) (l : List α) :
    (l.dropWhile p).takeWhile p = [] := by
  induction l with
  | nil => rfl
  | cons x xs ih =>
    by_cases hx : p x
    · simp [List.dropWhile_cons, hx, ih]
    · simp [List.dropWhile_cons, hx, List.takeWhile_cons]

theorem dropWhile_dropWhile (p : α → Bool) (l : List α) :
    (l.dropWhile p).dropWhile p = l.dropWhile p := by
  induction l with
  | nil => rfl
  | cons x xs ih =>
    by_cases hx : p x
    · simp [List.dropWhile_cons, hx, ih]
    · simp [List.dropWhile_cons, hx]

theorem dropWhile_of_takeWhile_nil (p : α → Bool) (l : List α)
    (h : l.takeWhile p = []) : l.dropWhile p = l := by
  cases l with
  | nil => rfl
  | cons x xs =>
    by_cases hx : p x
    · simp [List.takeWhile_cons, hx] at h
    · simp [List.dropWhile_cons, hx]

/-- The humidity-alert portion of the state, used to state frame
properties. -/
def humView (s : EngineState) : ℚ × Bool × Bool :=
  (s.humidityAlertThreshold, s.humidityAlertActive, s.humidityAlertAcknowledged)

theorem humView_checkTemperatureAlert (t : ℚ) (s : EngineState) :
    humView (checkTemperatureAlert t s) = humView s := by
  unfold checkTemperatureAlert
  repeat' split
  all_goals rfl

theorem humView_emergencyDataCompression (mem : Nat → Nat) (s : EngineState) :
    humView (emergencyDataCompression mem s) = humView s := rfl

theorem humView_checkMemoryUsage (mu : Nat) (mem : Nat → Nat) (s : EngineState) :
    humView (checkMemoryUsage mu mem s) = humView s := by
  unfold checkMemoryUsage
  repeat' split
  all_goals rfl

theorem humView_aggregateOldData (env : Env) (s : EngineState) :
    humView (aggregateOldData env s) = humView s := by
  unfold aggregateOldData
  split
  all_goals rfl

theorem humView_handleSetAlert (v : Option ℚ) (s : EngineState) :
    humView (handleSetAlert v s).state = humView s := by
  unfold handleSetAlert
  repeat' split
  all_goals rfl

theorem humView_handleAckAlert (s : EngineState) :
    humView (handleAckAlert s) = humView s := by
  unfold handleAckAlert
  split
  all_goals rfl

theorem det_checkTemperatureAlert (t : ℚ) (s : EngineState) :
    (checkTemperatureAlert t s).detailedBuffer = s.detailedBuffer := by
  unfold checkTemperatureAlert
  repeat' split
  all_goals rfl

theorem agg_checkTemperatureAlert (t : ℚ) (s : EngineState) :
    (checkTemperatureAlert t s).aggregatedBuffer = s.aggregatedBuffer := by
  unfold checkTemperatureAlert
  repeat' split
  all_goals rfl

theorem boot_checkTemperatureAlert (t : ℚ) (s : EngineState) :
    (checkTemperatureAlert t s).bootTime = s.bootTime := by
  unfold checkTemperatureAlert
  repeat' split
  all_goals rfl

theorem detLen_checkMemoryUsage (mu : Nat) (mem : Nat → Nat) (s : EngineState) :
    (checkMemoryUsage mu mem s).detailedBuffer.length ≤ s.detailedBuffer.length := by
  unfold checkMemoryUsage
  repeat' split
  all_goals first
    | exact Nat.le_refl _
    | exact dropOldestToCap_length_le _ _

theorem aggLen_checkMemoryUsage (mu : Nat) (mem : Nat → Nat) (s : EngineState) :
    (checkMemoryUsage mu mem s).aggregatedBuffer.length ≤ s.aggregatedBuffer.length := by
  unfold checkMemoryUsage
  repeat' split
  all_goals first
    | exact Nat.le_refl _
    | exact aggCompressGo_length_le _ _ _ _

theorem boot_checkMemoryUsage (mu : Nat) (mem : Nat → Nat) (s : EngineState) :
    (checkMemoryUsage mu mem s).bootTime = s.bootTime := by
  unfold checkMemoryUsage
  repeat' split
  all_goals rfl

theorem detLen_aggregateOldData (env : Env) (s : EngineState) :
    (aggregateOldData env s).detailedBuffer.length ≤ s.detailedBuffer.length := by
  unfold aggregateOldData
  split
  · exact Nat.le_refl _
  · exact (List.dropWhile_sublist _).length_le

theorem aggLen_aggregateOldData (env : Env) (s : EngineState)
    (h : s.aggregatedBuffer.length ≤ MAX_AGGREGATE_SAMPLES) :
    (aggregateOldData env s).aggregatedBuffer.length ≤ MAX_AGGREGATE_SAMPLES := by
  unfold aggregateOldData
  split
  · exact h
  · exact dropOldestToCap_length_le_cap _ _

theorem boot_aggregateOldData (env : Env) (s : EngineState) :
    (aggregateOldData env s).bootTime = s.bootTime := by
  unfold aggregateOldData
  split
  all_goals rfl

theorem det_handleSetAlert (v : Option ℚ) (s : EngineState) :
    (handleSetAlert v s).state.detailedBuffer = s.detailedBuffer := by
  unfold handleSetAlert
  repeat' split
  all_goals rfl

theorem agg_handleSetAlert (v : Option ℚ) (s : EngineState) :
    (handleSetAlert v s).state.aggregatedBuffer = s.aggregatedBuffer := by
  unfold handleSetAlert
  repeat' split
  all_goals rfl

theorem det_handleAckAlert (s : EngineState) :
    (handleAckAlert s).detailedBuffer = s.detailedBuffer := by
  unfold handleAckAlert
  split
  all_goals rfl

theorem agg_handleAckAlert (s : EngineState) :
    (handleAckAlert s).aggregatedBuffer = s.aggregatedBuffer := by
  unfold handleAckAlert
  split
  all_goals rfl

theorem humView_addReading (env : Env) (tn hn : Bool) (t h : ℚ) (s : EngineState) :
    humView (addReading env tn hn t h s) = humView s := by
  unfold addReading
  split
  · rfl
  split
  · rfl
  dsimp only
  split_ifs
  all_goals
    first
      | exact (humView_aggregateOldData env _).trans
          ((humView_checkMemoryUsage _ _ _).trans (humView_checkTemperatureAlert _ _))
      | exact (humView_checkMemoryUsage _ _ _).trans (humView_checkTemperatureAlert _ _)

theorem detLen_cmuCta (mu : Nat) (mem : Nat → Nat) (t : ℚ) (x : EngineState)
    (n : Nat) (hx : x.detailedBuffer.length ≤ n) :
    (checkMemoryUsage mu mem (checkTemperatureAlert t x)).detailedBuffer.length ≤ n :=
  Nat.le_trans (detLen_checkMemoryUsage mu mem (checkTemperatureAlert t x))
    (by rw [det_checkTemperatureAlert]; exact hx)

theorem aggLen_cmuCta (mu : Nat) (mem : Nat → Nat) (t : ℚ) (x : EngineState)
    (n : Nat) (hx : x.aggregatedBuffer.length ≤ n) :
    (checkMemoryUsage mu mem (checkTemperatureAlert t x)).aggregatedBuffer.length ≤ n :=
  Nat.le_trans (aggLen_checkMemoryUsage mu mem (checkTemperatureAlert t x))
    (by rw [agg_checkTemperatureAlert]; exact hx)

theorem detLen_addReading (env : Env) (tn hn : Bool) (t h : ℚ) (s : EngineState)
    (hs : s.detailedBuffer.length ≤ MAX_DETAILED_SAMPLES) :
    (addReading env tn hn t h s).detailedBuffer.length ≤ MAX_DETAILED_SAMPLES := by
  unfold addReading
  split
  · exact hs
  split
  · exact hs
  dsimp only
  split_ifs
  all_goals
    first
      | exact Nat.le_trans (detLen_aggregateOldData env _)
          (detLen_cmuCta _ _ _ _ _ (dropOldestToCap_length_le_cap _ _))
      | exact detLen_cmuCta _ _ _ _ _ (dropOldestToCap_length_le_cap _ _)

theorem aggLen_addReading (env : Env) (tn hn : Bool) (t h : ℚ) (s : EngineState)
    (hs : s.aggregatedBuffer.length ≤ MAX_AGGREGATE_SAMPLES) :
    (addReading env tn hn t h s).aggregatedBuffer.length ≤ MAX_AGGREGATE_SAMPLES := by
  unfold addReading
  split
  · exact hs
  split
  · exact hs
  dsimp only
  split_ifs
  all_goals
    first
      | exact aggLen_aggregateOldData env _ (aggLen_cmuCta _ _ _ _ _ hs)
      | exact aggLen_cmuCta _ _ _ _ _ hs

theorem boot_addReading (env : Env) (tn hn : Bool) (t h : ℚ) (s : EngineState) :
    (addReading env tn hn t h s).bootTime = s.bootTime ∨
      (addReading env tn hn t h s).bootTime =
        (computeTimestamp env.rtc env.millis s.bootTime).2 := by
  unfold addReading
  split
  · exact Or.inl rfl
  split
  · exact Or.inl rfl
  dsimp only
  split_ifs
  all_goals
    first
      | exact Or.inr ((boot_aggregateOldData env _).trans
          ((boot_checkMemoryUsage _ _ _).trans (boot_checkTemperatureAlert _ _)))
      | exact Or.inr ((boot_checkMemoryUsage _ _ _).trans (boot_checkTemperatureAlert _ _))

theorem humView_applyOp (s : EngineState) (op : Op) :
    humView (applyOp s op) = humView s := by
  cases op with
  | submit env tn hn t h => exact humView_addReading env tn hn t h s
  | aggregate env => exact humView_aggregateOldData env s
  | memCheck mu mem => exact humView_checkMemoryUsage mu mem s
  | setAlert v => exact humView_handleSetAlert v s
  | ackAlert => exact humView_handleAckAlert s
  | load rtc millis file cfg => rfl

theorem humView_runOps (ops : List Op) (s : EngineState) :
    humView (runOps s ops) = humView s := by
  induction ops generalizing s with
  | nil => rfl
  | cons op ops ih =>
    exact (ih (applyOp s op)).trans (humView_applyOp s op)

theorem detLen_applyOp (s : EngineState) (op : Op)
    (hs : s.detailedBuffer.length ≤ MAX_DETAILED_SAMPLES) :
    (applyOp s op).detailedBuffer.length ≤ MAX_DETAILED_SAMPLES := by
  cases op with
  | submit env tn hn t h => exact detLen_addReading env tn hn t h s hs
  | aggregate env => exact Nat.le_trans (detLen_aggregateOldData env s) hs
  | memCheck mu mem => exact Nat.le_trans (detLen_checkMemoryUsage mu mem s) hs
  | setAlert v => rw [applyOp, det_handleSetAlert]; exact hs
  | ackAlert => rw [applyOp, det_handleAckAlert]; exact hs
  | load rtc millis file cfg => exact hs

theorem detLen_runOps (ops : List Op) (s : EngineState)
    (hs : s.detailedBuffer.length ≤ MAX_DETAILED_SAMPLES) :
    (runOps s ops).detailedBuffer.length ≤ MAX_DETAILED_SAMPLES := by
  induction ops generalizing s with
  | nil => exact hs
  | cons op ops ih => exact ih (applyOp s op) (detLen_applyOp s op hs)

theorem aggLen_applyOp (s : EngineState) (op : Op) (hop : op.isLoad = false)
    (hs : s.aggregatedBuffer.length ≤ MAX_AGGREGATE_SAMPLES) :
    (applyOp s op).aggregatedBuffer.length ≤ MAX_AGGREGATE_SAMPLES := by
  cases op with
  | submit env tn hn t h => exact aggLen_addReading env tn hn t h s hs
  | aggregate env => exact aggLen_aggregateOldData env s hs
  | memCheck mu mem => exact Nat.le_trans (aggLen_checkMemoryUsage mu mem s) hs
  | setAlert v => rw [applyOp, agg_handleSetAlert]; exact hs
  | ackAlert => rw [applyOp, agg_handleAckAlert]; exact hs
  | load rtc millis file cfg => exact absurd hop (by simp [Op.isLoad])

theorem aggLen_runOps (ops : List Op) (s : EngineState)
    (hops : ∀ op ∈ ops, op.isLoad = false)
    (hs : s.aggregatedBuffer.length ≤ MAX_AGGREGATE_SAMPLES) :
    (runOps s ops).aggregatedBuffer.length ≤ MAX_AGGREGATE_SAMPLES := by
  induction ops generalizing s with
  | nil => exact hs
  | cons op ops ih =>
    exact ih (applyOp s op) (fun o ho => hops o (List.mem_cons_of_mem op ho))
      (aggLen_applyOp s op (hops op (List.mem_cons_self op ops)) hs)

theorem aggregateOldData_fix (env : Env) (s : EngineState)
    (hdet : s.detailedBuffer.takeWhile (oldReading (aggCutoff env)) = [])
    (hagg : s.aggregatedBuffer.length ≤ MAX_AGGREGATE_SAMPLES) :
    aggregateOldData env s = s := by
  unfold aggregateOldData
  split
  · rfl
  · dsimp only
    rw [hdet, dropWhile_of_takeWhile_nil _ _ hdet]
    rw [show bucketKeys ([] : List Reading) = [] from rfl, List.foldl_nil]
    rw [dropOldestToCap_eq_of_le _ _ hagg]

theorem det_aggregateOldData_nonempty (env : Env) (s : EngineState)
    (h0 : s.detailedBuffer.isEmpty = false) :
    (aggregateOldData env s).detailedBuffer
      = s.detailedBuffer.dropWhile (oldReading (aggCutoff env)) := by
  unfold aggregateOldData
  rw [if_neg (by simp [h0])]

theorem aggLen_aggregateOldData_nonempty (env : Env) (s : EngineState)
    (h0 : s.detailedBuffer.isEmpty = false) :
    (aggregateOldData env s).aggregatedBuffer.length ≤ MAX_AGGREGATE_SAMPLES := by
  unfold aggregateOldData
  rw [if_neg (by simp [h0])]
  exact dropOldestToCap_length_le_cap _ _

theorem computeTimestamp_mono_same (b : Option Nat) (r1 r2 m1 m2 : Nat)
    (h1 : r1 = 0 ∨ r1 < 1000000000) (h2 : r2 = 0 ∨ r2 < 1000000000)
    (hb : ∀ x, b = some x → x ≤ 4294967)
    (hm : m1 ≤ m2) (hm2 : m2 < 2 ^ 32) :
    (computeTimestamp r1 m1 b).1 ≤ (computeTimestamp r2 m2 b).1 := by
  have e1 : computeTimestamp r1 m1 b
      = (mod32 (b.getD (m1 / 1000) + m1 / 1000), some (b.getD (m1 / 1000))) := by
    unfold computeTimestamp; rw [if_pos h1]
  have e2 : computeTimestamp r2 m2 b
      = (mod32 (b.getD (m2 / 1000) + m2 / 1000), some (b.getD (m2 / 1000))) := by
    unfold computeTimestamp; rw [if_pos h2]
  rw [e1, e2]
  have hb0 : ∀ m : Nat, m < 2 ^ 32 → b.getD (m / 1000) ≤ 4294967 := by
    intro m hmlt
    cases b with
    | none => simp only [Option.getD]; omega
    | some x => exact hb x rfl
  have hx1 := hb0 m1 (by omega)
  have hx2 := hb0 m2 hm2
  have hgd : b.getD (m1 / 1000) ≤ b.getD (m2 / 1000) := by
    cases b with
    | none => simp only [Option.getD]; omega
    | some x => exact Nat.le_refl _
  unfold mod32
  rw [Nat.mod_eq_of_lt (by omega), Nat.mod_eq_of_lt (by omega)]
  omega

theorem computeTimestamp_mono_captured (b : Option Nat) (r1 r2 m1 m2 : Nat)
    (h1 : r1 = 0 ∨ r1 < 1000000000) (h2 : r2 = 0 ∨ r2 < 1000000000)
    (hb : ∀ x, b = some x → x ≤ 4294967)
    (hm : m1 ≤ m2) (hm2 : m2 < 2 ^ 32) :
    (computeTimestamp r1 m1 b).1
      ≤ (computeTimestamp r2 m2 (computeTimestamp r1 m1 b).2).1 := by
  have e1 : computeTimestamp r1 m1 b
      = (mod32 (b.getD (m1 / 1000) + m1 / 1000), some (b.getD (m1 / 1000))) := by
    unfold computeTimestamp; rw [if_pos h1]
  have e2 : computeTimestamp r2 m2 (some (b.getD (m1 / 1000)))
      = (mod32 (b.getD (m1 / 1000) + m2 / 1000), some (b.getD (m1 / 1000))) := by
    unfold computeTimestamp; rw [if_pos h2]; rfl
  rw [e1]
  rw [e2]
  have hb0 : b.getD (m1 / 1000) ≤ 4294967 := by
    cases b with
    | none => simp only [Option.getD]; omega
    | some x => exact hb x rfl
  unfold mod32
  rw [Nat.mod_eq_of_lt (by omega), Nat.mod_eq_of_lt (by omega)]
  omega

theorem runOps_append (s : EngineState) (l1 l2 : List Op) :
    runOps s (l1 ++ l2) = runOps (runOps s l1) l2 :=
  List.foldl_append _ _ _ _

/-- C7: under every sequence of engine operations the Detailed Buffer never
holds more than its capacity `MAX_DETAILED_SAMPLES = 60` (the oldest entry
is evicted FIFO on overflow), and in the concrete scenario of 70 consecutive
valid readings at the nominal 30-second interval from the initial state the
buffer ends up holding exactly the most recent 60 readings, the oldest 10
having been evicted. -/
theorem c7_detailed_capacity :
    (∀ (ops : List Op) (s : EngineState),
      s.detailedBuffer.length ≤ MAX_DETAILED_SAMPLES →
      (runOps s ops).detailedBuffer.length ≤ MAX_DETAILED_SAMPLES) ∧
    (runOps initialState ((List.range 70).map c7Op)).detailedBuffer
      = (List.range 60).map (fun j => ⟨1700000000 + 30 * (10 + j), 20, 50, ""⟩) := by
  constructor
  · exact fun ops s hs => detLen_runOps ops s hs
  · rw [show (List.range 70).map c7Op
        = (List.range' 0 10).map c7Op ++ ((List.range' 10 10).map c7Op
          ++ ((List.range' 20 10).map c7Op ++ ((List.range' 30 10).map c7Op
          ++ ((List.range' 40 10).map c7Op ++ ((List.range' 50 10).map c7Op
          ++ (List.range' 60 10).map c7Op))))) from rfl]
    rw [runOps_append,
      show runOps initialState ((List.range' 0 10).map c7Op)
        = c7Mid 10 1700000000 from by decide]
    rw [runOps_append,
      show runOps (c7Mid 10 1700000000) ((List.range' 10 10).map c7Op)
        = c7Mid 20 1700000300 from by decide]
    rw [runOps_append,
      show runOps (c7Mid 20 1700000300) ((List.range' 20 10).map c7Op)
        = c7Mid 30 1700000600 from by decide]
    rw [runOps_append,
      show runOps (c7Mid 30 1700000600) ((List.range' 30 10).map c7Op)
        = c7Mid 40 1700000900 from by decide]
    rw [runOps_append,
      show runOps (c7Mid 40 1700000900) ((List.range' 40 10).map c7Op)
        = c7Mid 50 1700001200 from by decide]
    rw [runOps_append,
      show runOps (c7Mid 50 1700001200) ((List.range' 50 10).map c7Op)
        = c7Mid 60 1700001500 from by decide]
    rw [show runOps (c7Mid 60 1700001500) ((List.range' 60 10).map c7Op)
        = c7Final from by decide]
    rfl

/-- Witness for C7: the capacity invariant applied at a concrete input. -/
theorem c7_detailed_capacity_witness :
    initialState.detailedBuffer.length ≤ MAX_DETAILED_SAMPLES ∧
    (runOps initialState [Op.ackAlert]).detailedBuffer.length
      ≤ MAX_DETAILED_SAMPLES :=
  ⟨by decide, c7_detailed_capacity.1 [Op.ackAlert] initialState (by decide)⟩

/-- C8: starting from the initial state (temperature threshold 40 °C, no
active alert), an accepted reading with temperature 45 °C makes the alert
active and unacknowledged; a subsequent acknowledge call marks it
acknowledged while leaving the alert active and the threshold at 40 °C. -/
theorem c8_alert_scenario :
    (addReading ⟨1700000000, 0, 50, fun _ => 50, "", fun _ => ""⟩ false false 45 50
        initialState).alertActive = true ∧
    (addReading ⟨1700000000, 0, 50, fun _ => 50, "", fun _ => ""⟩ false false 45 50
        initialState).alertAcknowledged = false ∧
    (handleAckAlert (addReading ⟨1700000000, 0, 50, fun _ => 50, "", fun _ => ""⟩
        false false 45 50 initialState)).alertAcknowledged = true ∧
    (handleAckAlert (addReading ⟨1700000000, 0, 50, fun _ => 50, "", fun _ => ""⟩
        false false 45 50 initialState)).alertActive = true ∧
    (handleAckAlert (addReading ⟨1700000000, 0, 50, fun _ => 50, "", fun _ => ""⟩
        false false 45 50 initialState)).alertThreshold = 40 := by
  decide

/-- C10: over every sequence of engine operations the humidity-alert
threshold, active flag and acknowledged flag retain their initial values:
`addReading` evaluates only the temperature alert and no engine operation
ever mutates the humidity alert state, so a humidity alert is never
raised. -/
theorem c10_humidity_frame (ops : List Op) (s : EngineState) :
    (runOps s ops).humidityAlertThreshold = s.humidityAlertThreshold ∧
    (runOps s ops).humidityAlertActive = s.humidityAlertActive ∧
    (runOps s ops).humidityAlertAcknowledged = s.humidityAlertAcknowledged := by
  have h := humView_runOps ops s
  unfold humView at h
  exact ⟨congrArg Prod.fst h, congrArg (fun p => p.2.1) h,
    congrArg (fun p => p.2.2) h⟩

/-- C5 (amended): `handleSetAlert` rejects a requested threshold exactly
when it lies outside the open interval (0, 100) — not (0, 100]: the value
100 is rejected.  On rejection the state is unchanged, HTTP 400 is sent and
no configuration persist happens; on acceptance the threshold is replaced,
HTTP 200 is sent and a configuration persist is triggered. -/
theorem c5_threshold_amended (v : ℚ) (s : EngineState) :
    ((v ≤ 0 ∨ 100 ≤ v) →
      (handleSetAlert (some v) s).state = s ∧
      (handleSetAlert (some v) s).status = 400 ∧
      (handleSetAlert (some v) s).persisted = false) ∧
    ((0 < v ∧ v < 100) →
      (handleSetAlert (some v) s).state = { s with alertThreshold := v } ∧
      (handleSetAlert (some v) s).status = 200 ∧
      (handleSetAlert (some v) s).persisted = true) := by
  constructor
  · intro hrej
    have hc : ¬(0 < v ∧ v < 100) := by
      intro hcon
      rcases hrej with hle | hge
      · exact absurd hcon.1 (not_lt.mpr hle)
      · exact absurd hcon.2 (not_lt.mpr hge)
    simp only [handleSetAlert]
    rw [if_neg hc]
    exact ⟨rfl, rfl, rfl⟩
  · intro hacc
    simp only [handleSetAlert]
    rw [if_pos hacc]
    exact ⟨rfl, rfl, rfl⟩

/-- Counterexample for C5 as stated: the threshold 100 lies inside
(0, 100], yet the code rejects it (HTTP 400, no persist, state
unchanged). -/
theorem c5_threshold_counterexample :
    (0 : ℚ) < 100 ∧ (100 : ℚ) ≤ 100 ∧
    (handleSetAlert (some 100) initialState).status = 400 ∧
    (handleSetAlert (some 100) initialState).persisted = false ∧
    (handleSetAlert (some 100) initialState).state = initialState := by
  decide

/-- Witness for C5: the amended theorem applied to the spec's scenario
`set_threshold(-5)`. -/
theorem c5_threshold_witness :
    (handleSetAlert (some (-5)) initialState).state = initialState ∧
    (handleSetAlert (some (-5)) initialState).status = 400 ∧
    (handleSetAlert (some (-5)) initialState).persisted = false :=
  (c5_threshold_amended (-5) initialState).1 (Or.inl (by norm_num))

/-- C1 (amended): under accepted readings, aggregation passes, memory
checks and alert operations the Aggregated Series never exceeds its
capacity `MAX_AGGREGATE_SAMPLES = 288` (oldest entries are dropped on
overflow); the startup load from persistent storage is excluded because
`loadFromPersistentStorage` appends without enforcing the cap. -/
theorem c1_aggregate_capacity_amended (ops : List Op) (s : EngineState)
    (hops : ∀ op ∈ ops, op.isLoad = false)
    (hs : s.aggregatedBuffer.length ≤ MAX_AGGREGATE_SAMPLES) :
    (runOps s ops).aggregatedBuffer.length ≤ MAX_AGGREGATE_SAMPLES :=
  aggLen_runOps ops s hops hs

/-- Counterexample for C1 as stated: a startup load of 289 fresh records
into the empty initial state leaves the Aggregated Series above its
capacity of 288. -/
theorem c1_capacity_counterexample :
    MAX_AGGREGATE_SAMPLES <
      (applyOp initialState
        (Op.load 1700000000 0 (List.replicate 289 ⟨1700000000, 20, 50, ""⟩)
          none)).aggregatedBuffer.length := by
  decide

/-- Witness for C1: the amended capacity invariant applied at a concrete
input. -/
theorem c1_capacity_witness :
    (∀ op ∈ ([Op.ackAlert] : List Op), op.isLoad = false) ∧
    initialState.aggregatedBuffer.length ≤ MAX_AGGREGATE_SAMPLES ∧
    (runOps initialState [Op.ackAlert]).aggregatedBuffer.length
      ≤ MAX_AGGREGATE_SAMPLES :=
  ⟨by decide, by decide,
    c1_aggregate_capacity_amended [Op.ackAlert] initialState (by decide) (by decide)⟩

/-- C3 (amended): when an enforcement is triggered (observed usage at or
above 90 %) and the in-call memory sampling still reports strictly above
90 %, `emergencyDataCompression` (via `checkMemoryUsage`) strictly
decreases the total stored reading count, or is a no-op exactly when both
buffers are already at or below their floor sizes (half of each nominal
capacity).  At an observed usage of exactly 90 % only the detailed buffer
is truncated, because the aggregated-series loop requires strictly more
than 90 %. -/
theorem c3_compression_amended (memUsage : Nat) (mem : Nat → Nat)
    (s : EngineState)
    (hobs : CRITICAL_MEMORY_THRESHOLD ≤ memUsage)
    (hmem : CRITICAL_MEMORY_THRESHOLD < mem 0) :
    totalCount (checkMemoryUsage memUsage mem s) < totalCount s ∨
      (s.detailedBuffer.length ≤ MAX_DETAILED_SAMPLES / 2 ∧
       s.aggregatedBuffer.length ≤ MAX_AGGREGATE_SAMPLES / 2 ∧
       (checkMemoryUsage memUsage mem s).detailedBuffer = s.detailedBuffer ∧
       (checkMemoryUsage memUsage mem s).aggregatedBuffer = s.aggregatedBuffer) := by
  have hcrit : checkMemoryUsage memUsage mem s
      = { (emergencyDataCompression mem s) with emergencyMode := true } := by
    unfold checkMemoryUsage
    rw [if_pos hobs]
  rw [hcrit]
  by_cases hdet : MAX_DETAILED_SAMPLES / 2 < s.detailedBuffer.length
  · left
    unfold totalCount emergencyDataCompression
    dsimp only
    have h1 : (dropOldestToCap (MAX_DETAILED_SAMPLES / 2) s.detailedBuffer).length
        = MAX_DETAILED_SAMPLES / 2 :=
      dropOldestToCap_length_of_ge _ _ (Nat.le_of_lt hdet)
    have h2 := aggCompressGo_length_le mem s.aggregatedBuffer.length 0 s.aggregatedBuffer
    omega
  · push_neg at hdet
    have hdet2 : dropOldestToCap (MAX_DETAILED_SAMPLES / 2) s.detailedBuffer
        = s.detailedBuffer := dropOldestToCap_eq_of_le _ _ hdet
    by_cases hagg : MAX_AGGREGATE_SAMPLES / 2 < s.aggregatedBuffer.length
    · left
      unfold totalCount emergencyDataCompression
      dsimp only
      rw [hdet2]
      have h2 := aggCompressGo_length_lt mem s.aggregatedBuffer hagg hmem
      omega
    · push_neg at hagg
      right
      refine ⟨hdet, hagg, ?_, ?_⟩
      · exact hdet2
      · exact aggCompressGo_eq_of_le mem _ _ _ hagg

/-- Counterexample for C3 as stated: with observed memory usage exactly
90 % (which does trigger enforcement), the detailed buffer at its floor of
30 and the aggregated buffer at 200 entries (above its floor of 144), the
enforcement call changes nothing. -/
theorem c3_compression_counterexample :
    CRITICAL_MEMORY_THRESHOLD ≤ 90 ∧
    totalCount (checkMemoryUsage 90 (fun _ => 90)
        { initialState with
          detailedBuffer := List.replicate 30 ⟨1, 20, 50, ""⟩,
          aggregatedBuffer := List.replicate 200 ⟨1, 20, 50, ""⟩ })
      = totalCount { initialState with
          detailedBuffer := List.replicate 30 ⟨1, 20, 50, ""⟩,
          aggregatedBuffer := List.replicate 200 ⟨1, 20, 50, ""⟩ } ∧
    MAX_AGGREGATE_SAMPLES / 2
      < (List.replicate 200 (⟨1, 20, 50, ""⟩ : Reading)).length := by
  decide

/-- Witness for C3: the amended theorem applied at a concrete input with
usage strictly above 90 %. -/
theorem c3_compression_witness :
    totalCount (checkMemoryUsage 91 (fun _ => 91)
        { initialState with
          detailedBuffer := List.replicate 30 ⟨1, 20, 50, ""⟩,
          aggregatedBuffer := List.replicate 200 ⟨1, 20, 50, ""⟩ })
      < totalCount { initialState with
          detailedBuffer := List.replicate 30 ⟨1, 20, 50, ""⟩,
          aggregatedBuffer := List.replicate 200 ⟨1, 20, 50, ""⟩ } ∨
      (({ initialState with
          detailedBuffer := List.replicate 30 ⟨1, 20, 50, ""⟩,
          aggregatedBuffer := List.replicate 200 ⟨1, 20, 50, ""⟩ }
            : EngineState).detailedBuffer.length ≤ MAX_DETAILED_SAMPLES / 2 ∧
       ({ initialState with
          detailedBuffer := List.replicate 30 ⟨1, 20, 50, ""⟩,
          aggregatedBuffer := List.replicate 200 ⟨1, 20, 50, ""⟩ }
            : EngineState).aggregatedBuffer.length ≤ MAX_AGGREGATE_SAMPLES / 2 ∧
       (checkMemoryUsage 91 (fun _ => 91)
          { initialState with
            detailedBuffer := List.replicate 30 ⟨1, 20, 50, ""⟩,
            aggregatedBuffer := List.replicate 200 ⟨1, 20, 50, ""⟩ }).detailedBuffer
         = ({ initialState with
            detailedBuffer := List.replicate 30 ⟨1, 20, 50, ""⟩,
            aggregatedBuffer := List.replicate 200 ⟨1, 20, 50, ""⟩ }
              : EngineState).detailedBuffer ∧
       (checkMemoryUsage 91 (fun _ => 91)
          { initialState with
            detailedBuffer := List.replicate 30 ⟨1, 20, 50, ""⟩,
            aggregatedBuffer := List.replicate 200 ⟨1, 20, 50, ""⟩ }).aggregatedBuffer
         = ({ initialState with
            detailedBuffer := List.replicate 30 ⟨1, 20, 50, ""⟩,
            aggregatedBuffer := List.replicate 200 ⟨1, 20, 50, ""⟩ }
              : EngineState).aggregatedBuffer) :=
  c3_compression_amended 91 (fun _ => 91) _ (by decide) (by decide)

/-- C2 (amended): with a never-synchronizing Clock Source, the timestamps
attached to successive accepted readings by `addReading` are non-decreasing
provided the underlying uint32 millisecond boot counter does not wrap
between the two readings (its values are non-decreasing); across a wrap the
seconds-since-boot term resets and the computed timestamps decrease. -/
theorem c2_monotone_amended (env1 env2 : Env) (tn hn : Bool) (t h : ℚ)
    (s : EngineState)
    (h1 : env1.rtc = 0 ∨ env1.rtc < 1000000000)
    (h2 : env2.rtc = 0 ∨ env2.rtc < 1000000000)
    (hb : ∀ x, s.bootTime = some x → x ≤ 4294967)
    (hm : env1.millis ≤ env2.millis) (hm2 : env2.millis < 2 ^ 32) :
    (computeTimestamp env1.rtc env1.millis s.bootTime).1 ≤
      (computeTimestamp env2.rtc env2.millis
        (addReading env1 tn hn t h s).bootTime).1 := by
  rcases boot_addReading env1 tn hn t h s with hB | hB
  · rw [hB]
    exact computeTimestamp_mono_same s.bootTime env1.rtc env2.rtc
      env1.millis env2.millis h1 h2 hb hm hm2
  · rw [hB]
    exact computeTimestamp_mono_captured s.bootTime env1.rtc env2.rtc
      env1.millis env2.millis h1 h2 hb hm hm2

/-- Counterexample for C2 as stated: with the clock never synchronized, a
first accepted reading at boot-counter value 1000000 ms is stamped 2000 s;
after the uint32 counter wraps and reads 500000 ms, the next computed
timestamp is 1500 s — the timestamps decrease across the wrap. -/
theorem c2_monotone_counterexample :
    (computeTimestamp 0 500000
        (addReading ⟨0, 1000000, 50, fun _ => 50, "", fun _ => ""⟩ false false 20 50
          initialState).bootTime).1 <
      (computeTimestamp 0 1000000 initialState.bootTime).1 := by
  decide

/-- Witness for C2: the amended monotonicity applied at a concrete input
without a counter wrap. -/
theorem c2_monotone_witness :
    (computeTimestamp 0 1000000 initialState.bootTime).1 ≤
      (computeTimestamp 0 2000000
        (addReading ⟨0, 1000000, 50, fun _ => 50, "", fun _ => ""⟩ false false 20 50
          initialState).bootTime).1 :=
  c2_monotone_amended ⟨0, 1000000, 50, fun _ => 50, "", fun _ => ""⟩
    ⟨0, 2000000, 50, fun _ => 50, "", fun _ => ""⟩ false false 20 50 initialState
    (Or.inl rfl) (Or.inl rfl)
    (by intro x hx; simp [initialState] at hx)
    (by norm_num) (by norm_num)

/-- C4 (amended): saving the Aggregated Series and immediately loading it
back into an empty series (same clock, load succeeding) reproduces the
saved series truncated to the last `MAX_SPIFFS_RECORDS` entries in stored
order, provided every persisted record passes the load-time 7-day age
filter; records older than 7 days (in wrapping uint32 age) are dropped by
the load, so the round trip is not the identity in general. -/
theorem c4_roundtrip_amended (rtc millis : Nat) (agg : List Reading)
    (hage : ∀ r ∈ saveToPersistentStorage agg,
      sub32 (loadNow rtc millis) r.ts ≤ 7 * 24 * 3600) :
    loadFromPersistentStorage rtc millis (saveToPersistentStorage agg) []
      = saveToPersistentStorage agg := by
  unfold loadFromPersistentStorage
  rw [List.nil_append]
  rw [List.filter_eq_self.mpr]
  intro r hr
  simpa using hage r hr

/-- Counterexample for C4 as stated: a series holding one record with
timestamp 0, saved and immediately reloaded under a synchronized clock at
2000000000 s, loads back empty instead of reproducing the saved record. -/
theorem c4_roundtrip_counterexample :
    loadFromPersistentStorage 2000000000 0
        (saveToPersistentStorage [⟨0, 20, 50, ""⟩]) []
      ≠ saveToPersistentStorage [⟨0, 20, 50, ""⟩] := by
  decide

/-- Witness for C4: the amended round trip applied to a concrete fresh
series. -/
theorem c4_roundtrip_witness :
    loadFromPersistentStorage 1000000 0
        (saveToPersistentStorage [⟨1000000, 20, 50, "x"⟩]) []
      = saveToPersistentStorage [⟨1000000, 20, 50, "x"⟩] :=
  c4_roundtrip_amended 1000000 0 [⟨1000000, 20, 50, "x"⟩] (by decide)

/-- C6: re-running `aggregateOldData` with no new qualifying readings in
between is a no-op (the first run consumed every entry older than the
cutoff, so the second run finds no bucket to insert), and a candidate
bucket is dropped, not merged, whenever some existing aggregated entry lies
within the 60-second tolerance of the candidate bucket key. -/
theorem c6_idempotent :
    (∀ (env : Env) (s : EngineState),
      aggregateOldData env (aggregateOldData env s) = aggregateOldData env s) ∧
    (∀ (fmt : Nat → String) (old agg : List Reading) (k : Nat),
      dedupHit agg k = true → insertBucket fmt old agg k = agg) := by
  constructor
  · intro env s
    by_cases h0 : s.detailedBuffer.isEmpty
    · have hA : aggregateOldData env s = s := by
        unfold aggregateOldData
        rw [if_pos h0]
      rw [hA]
      exact hA
    · have h0f : s.detailedBuffer.isEmpty = false := by
        exact Bool.not_eq_true _ ▸ (by simpa using h0)
      apply aggregateOldData_fix
      · rw [det_aggregateOldData_nonempty env s h0f]
        exact takeWhile_dropWhile_nil _ _
      · exact aggLen_aggregateOldData_nonempty env s h0f
  · intro fmt old agg k hk
    unfold insertBucket
    simp [hk]

/-- Witness for C6: both parts applied at concrete inputs (an aggregated
entry 10 seconds from the candidate key suppresses the insertion). -/
theorem c6_idempotent_witness :
    aggregateOldData ⟨1700000000, 0, 50, fun _ => 50, "", fun _ => ""⟩
        (aggregateOldData ⟨1700000000, 0, 50, fun _ => 50, "", fun _ => ""⟩
          { initialState with detailedBuffer := [⟨1000, 20, 50, ""⟩] })
      = aggregateOldData ⟨1700000000, 0, 50, fun _ => 50, "", fun _ => ""⟩
          { initialState with detailedBuffer := [⟨1000, 20, 50, ""⟩] } ∧
    insertBucket (fun _ => "") [] [⟨310, 20, 50, ""⟩] 300 = [⟨310, 20, 50, ""⟩] :=
  ⟨c6_idempotent.1 ⟨1700000000, 0, 50, fun _ => 50, "", fun _ => ""⟩
      { initialState with detailedBuffer := [⟨1000, 20, 50, ""⟩] },
    c6_idempotent.2 (fun _ => "") [] [⟨310, 20, 50, ""⟩] 300 (by decide)⟩

/-- C9: in the unsynchronized-clock regime, whenever `aggregateOldData`
runs with fallback time `millis()/1000` below `DETAILED_PERIOD_SEC`, the
uint32 computation `cutoffTime = now - DETAILED_PERIOD_SEC` wraps to at
least `2^32 - DETAILED_PERIOD_SEC`, so every (fallback-stamped) entry of
the Detailed Buffer counts as old: the whole buffer — including readings
newer than the retention window — is bucketed and removed. -/
theorem c9_cutoff_wrap (env : Env) (s : EngineState)
    (h1 : env.rtc = 0 ∨ env.rtc < 1000000000)
    (h2 : env.millis / 1000 < DETAILED_PERIOD_SEC)
    (h3 : ∀ r ∈ s.detailedBuffer, r.ts < 2 ^ 32 - DETAILED_PERIOD_SEC) :
    2 ^ 32 - DETAILED_PERIOD_SEC ≤ aggCutoff env ∧
    s.detailedBuffer.takeWhile (oldReading (aggCutoff env)) = s.detailedBuffer ∧
    (aggregateOldData env s).detailedBuffer = [] := by
  have hnow : aggNow env.rtc env.millis = env.millis / 1000 := by
    unfold aggNow
    rw [if_pos h1]
  have hcut : aggCutoff env = env.millis / 1000 + (2 ^ 32 - DETAILED_PERIOD_SEC) := by
    unfold aggCutoff sub32
    rw [hnow]
    unfold DETAILED_PERIOD_SEC at h2 ⊢
    rw [Nat.mod_eq_of_lt (by omega), Nat.mod_eq_of_lt (by omega)]
  have hge : 2 ^ 32 - DETAILED_PERIOD_SEC ≤ aggCutoff env := by
    rw [hcut]; omega
  have hall : ∀ r ∈ s.detailedBuffer, oldReading (aggCutoff env) r = true := by
    intro r hr
    have := h3 r hr
    simp only [oldReading, decide_eq_true_eq]
    omega
  refine ⟨hge, List.takeWhile_eq_self_iff.mpr hall, ?_⟩
  by_cases h0 : s.detailedBuffer.isEmpty
  · unfold aggregateOldData
    rw [if_pos h0]
    exact List.isEmpty_iff.mp h0
  · rw [det_aggregateOldData_nonempty env s (by simpa using h0)]
    exact List.dropWhile_eq_nil_iff.mpr hall

/-- Witness for C9: the wrap applied at a concrete unsynchronized state
(boot counter at 500 s, one buffered reading stamped 100 s). -/
theorem c9_cutoff_wrap_witness :
    2 ^ 32 - DETAILED_PERIOD_SEC
      ≤ aggCutoff ⟨0, 500000, 50, fun _ => 50, "", fun _ => ""⟩ ∧
    ({ initialState with detailedBuffer := [⟨100, 20, 50, ""⟩] }
        : EngineState).detailedBuffer.takeWhile
        (oldReading (aggCutoff ⟨0, 500000, 50, fun _ => 50, "", fun _ => ""⟩))
      = ({ initialState with detailedBuffer := [⟨100, 20, 50, ""⟩] }
          : EngineState).detailedBuffer ∧
    (aggregateOldData ⟨0, 500000, 50, fun _ => 50, "", fun _ => ""⟩
        { initialState with detailedBuffer := [⟨100, 20, 50, ""⟩] }).detailedBuffer
      = [] :=
  c9_cutoff_wrap ⟨0, 500000, 50, fun _ => 50, "", fun _ => ""⟩
    { initialState with detailedBuffer := [⟨100, 20, 50, ""⟩] }
    (Or.inl rfl) (by decide) (by decide)

end TempHum
